import Mathlib

/-!
Verification of the `date_hour` package (files `src/date_hour/date_hour.py` and
`src/date_hour/time_range.py`) against its natural-language specification.

The Python code is shallowly embedded as follows.

* A `DateHour` instance is a `str` subclass; its carrier value here is a Lean
  `String`.  The constructor `DateHour.__new__` is `DateHour.new : String →
  Option String` (`none` models a raised `ValueError`, the spec's
  `FormatError`).  Note that in `__new__` the local variable `value` is
  reassigned to the `datetime` produced by `strptime` before
  `super().__new__(cls, value)` runs, so the stored string is `str(datetime)`,
  i.e. the fully expanded `YYYY-MM-DD HH:MM:SS` text, whatever the input shape.
* `datetime` values are `Datetime` records (year, month, day, hour, minute,
  second; microseconds are always zero on every path of this code and are
  omitted).  The `datetime(...)` constructor's range validation is
  `mkDatetime`.  Calendar arithmetic (`timedelta` addition and subtraction)
  is embedded through the proleptic-Gregorian ordinal conversion used by
  CPython's `datetime` module (`_ymd2ord` / `_ord2ymd`).
* The five anchored regular expressions of `DateHour.patterns` are embedded as
  token lists (`patYear` … `patFull`) matched by `matchToks`; a digit is an
  ASCII digit (all texts reachable in the specification are ASCII).
  `re.fullmatch` over the ordered pattern list is `matchedFormat`.
* `datetime.strptime(value, fmt)` restricted to the five formats is
  `strptime`.  `strptime`'s field regexes and the `datetime` constructor both
  reject out-of-range fields with `ValueError`; the embedding performs the
  range check once, in `mkDatetime`, which yields the same success/failure
  outcome for every input.
* `str(datetime)` / `datetime.isoformat(' ')` is embedded as `renderFull`
  (every field zero-padded; isoformat always pads the year to four digits).
  `strftime('%Y-%m-%d %H:%M:%S')` is embedded separately as `strftimeFull`,
  because the platform's C `strftime` renders `%Y` as an unpadded decimal
  number: years below 1000 get fewer than four digits there
  (`datetime(999, 1, 1).strftime('%Y')` is `'999'`), while the two-digit
  fields are zero-padded.  The two renderings agree exactly on four-digit
  years.
* `TimeRange` is a structure of the two stored strings; its constructor paths
  are `TimeRange.ofStart` / `TimeRange.ofStartStop` and `__len__` is
  `TimeRange.len`.
-/

/-- ASCII decimal digit test, embedding the `\d` character class on the
texts this package handles. -/
def isDigitChar (c : Char) : Bool := 48 ≤ c.toNat && c.toNat ≤ 57

/-- The character for a decimal digit value. -/
def digitChar (d : Nat) : Char := Char.ofNat (48 + d)

/-- Numeric value of a digit character. -/
def digitVal (c : Char) : Nat := c.toNat - 48

/-- Decimal number denoted by a digit string (what `int()` does to the
groups captured by `strptime`). -/
def natOfDigits (cs : List Char) : Nat := cs.foldl (fun a c => a * 10 + digitVal c) 0

/-- One token of an anchored pattern: a digit position or a literal
character. -/
inductive PatTok where
  | digit : PatTok
  | lit : Char → PatTok

/-- `re.fullmatch` of a fixed-shape pattern: every token must consume exactly
one character and the whole text must be consumed. -/
def matchToks : List PatTok → List Char → Bool
  | [], [] => true
  | [], _ :: _ => false
  | _ :: _, [] => false
  | PatTok.digit :: ps, c :: cs => isDigitChar c && matchToks ps cs
  | PatTok.lit a :: ps, c :: cs => (c == a) && matchToks ps cs

/-- `^\d{4}$` — the `%Y` pattern. -/
def patYear : List PatTok := [.digit, .digit, .digit, .digit]

/-- `^\d{4}-\d{2}$` — the `%Y-%m` pattern. -/
def patMonth : List PatTok := [.digit, .digit, .digit, .digit, .lit '-', .digit, .digit]

/-- `^\d{4}-\d{2}-\d{2}$` — the `%Y-%m-%d` pattern. -/
def patDay : List PatTok :=
  [.digit, .digit, .digit, .digit, .lit '-', .digit, .digit, .lit '-', .digit, .digit]

/-- `^\d{4}-\d{2}-\d{2} \d{2}$` — the `%Y-%m-%d %H` pattern. -/
def patHour : List PatTok :=
  [.digit, .digit, .digit, .digit, .lit '-', .digit, .digit, .lit '-', .digit, .digit,
   .lit ' ', .digit, .digit]

/-- `^\d{4}-\d{2}-\d{2} \d{2}:\d{2}:\d{2}$` — the `%Y-%m-%d %H:%M:%S` pattern. -/
def patFull : List PatTok :=
  [.digit, .digit, .digit, .digit, .lit '-', .digit, .digit, .lit '-', .digit, .digit,
   .lit ' ', .digit, .digit, .lit ':', .digit, .digit, .lit ':', .digit, .digit]

/-- The five format names of `DateHour.patterns` / `_get_format_type`. -/
inductive FormatType where
  | year : FormatType
  | month : FormatType
  | day : FormatType
  | hour : FormatType
  | full : FormatType
deriving DecidableEq

/-- First `fullmatch` over `DateHour.patterns` in their fixed order, as in the
matching loop of `__new__`, `_get_start_datetime`, `_get_stop_datetime` and in
`_get_format_type` (which re-runs the same five anchored patterns in the same
order). -/
def matchedFormat (cs : List Char) : Option FormatType :=
  if matchToks patYear cs then some FormatType.year
  else if matchToks patMonth cs then some FormatType.month
  else if matchToks patDay cs then some FormatType.day
  else if matchToks patHour cs then some FormatType.hour
  else if matchToks patFull cs then some FormatType.full
  else none

/-- A civil `datetime` value at second resolution (microseconds are zero on
every code path of this package and are omitted). -/
structure Datetime where
  year : Nat
  month : Nat
  day : Nat
  hour : Nat
  minute : Nat
  second : Nat
deriving DecidableEq

/-- Proleptic-Gregorian leap-year rule (CPython `datetime._is_leap`). -/
def isLeapYear (y : Nat) : Bool := (y % 4 == 0 && y % 100 != 0) || y % 400 == 0

/-- Length of a calendar month (CPython `datetime._days_in_month`). -/
def daysInMonth (y m : Nat) : Nat :=
  if m = 2 then (if isLeapYear y then 29 else 28)
  else if m = 4 ∨ m = 6 ∨ m = 9 ∨ m = 11 then 30
  else 31

/-- The range check performed by the `datetime` constructor: `MINYEAR = 1`,
`MAXYEAR = 9999`, month, day, hour, minute and second within calendar
bounds. -/
def Datetime.Valid (dt : Datetime) : Prop :=
  1 ≤ dt.year ∧ dt.year ≤ 9999 ∧ 1 ≤ dt.month ∧ dt.month ≤ 12 ∧
  1 ≤ dt.day ∧ dt.day ≤ daysInMonth dt.year dt.month ∧
  dt.hour ≤ 23 ∧ dt.minute ≤ 59 ∧ dt.second ≤ 59

instance (dt : Datetime) : Decidable dt.Valid := by
  unfold Datetime.Valid
  infer_instance

/-- The `datetime(...)` constructor: yields the value when all fields are in
range and raises `ValueError` (here `none`) otherwise. -/
def mkDatetime (y m d hr mi s : Nat) : Option Datetime :=
  if (Datetime.mk y m d hr mi s).Valid then some (Datetime.mk y m d hr mi s) else none

/-- Days before January 1 of year `y`, counted from ordinal day 0
(CPython `datetime._days_before_year`). -/
def daysBeforeYear (y : Nat) : Nat :=
  365 * (y - 1) + (y - 1) / 4 - (y - 1) / 100 + (y - 1) / 400

/-- Days in year `y` preceding the first of month `m`
(CPython `datetime._days_before_month`). -/
def daysBeforeMonth (y : Nat) : Nat → Nat
  | 0 => 0
  | m + 1 => if m = 0 then 0 else daysBeforeMonth y m + daysInMonth y m

/-- Proleptic-Gregorian ordinal of a date, with 0001-01-01 as day 1
(CPython `datetime._ymd2ord`). -/
def toOrdinal (y m d : Nat) : Nat := daysBeforeYear y + daysBeforeMonth y m + d

/-- Smallest month `m` in `[start, start + fuel]` whose successor month begins
after day-of-year `doy`; the month-search loop of CPython
`datetime._ord2ymd`. -/
def findMonthAux (y doy start : Nat) : Nat → Nat
  | 0 => start
  | fuel + 1 =>
    if doy < daysBeforeMonth y (start + 1) then start
    else findMonthAux y doy (start + 1) fuel

/-- Month containing day-of-year `doy` (0-based) of year `y`. -/
def findMonth (y doy : Nat) : Nat := findMonthAux y doy 1 11

/-- Date of a proleptic-Gregorian ordinal (CPython `datetime._ord2ymd`):
decompose into 400-, 100-, 4- and 1-year cycles, then locate the month. -/
def ord2ymd (n0 : Nat) : Nat × Nat × Nat :=
  let n := n0 - 1
  let n400 := n / 146097
  let r400 := n % 146097
  let n100 := r400 / 36524
  let r100 := r400 % 36524
  let n4 := r100 / 1461
  let r4 := r100 % 1461
  let n1 := r4 / 365
  let doy := r4 % 365
  let year := n400 * 400 + 1 + n100 * 100 + n4 * 4 + n1
  if n1 = 4 ∨ n100 = 4 then (year - 1, 12, 31)
  else
    let m := findMonth year doy
    (year, m, doy - daysBeforeMonth year m + 1)

/-- Hours elapsed since 0001-01-01 00:00.  Used only on values whose minutes
and seconds are zero, which holds for every `datetime` this package feeds
into `timedelta` arithmetic. -/
def Datetime.toAbsHours (dt : Datetime) : Int :=
  24 * (toOrdinal dt.year dt.month dt.day : Int) + dt.hour

/-- Seconds elapsed since 0001-01-01 00:00; the quantity
`(stop_dt - start_dt).total_seconds()` is the difference of two of these. -/
def Datetime.toAbsSeconds (dt : Datetime) : Int :=
  3600 * dt.toAbsHours + 60 * dt.minute + dt.second

/-- The `datetime` at a given absolute hour count: `timedelta` arithmetic
lands here, raising `OverflowError` (`none`) outside ordinals 1 to 3652059
(0001-01-01 to 9999-12-31), exactly as CPython does. -/
def dtFromAbsHours (t : Int) : Option Datetime :=
  let d := Int.fdiv t 24
  let hr := (t - 24 * d).toNat
  if 1 ≤ d ∧ d ≤ 3652059 then
    match ord2ymd d.toNat with
    | (y, m, dd) => some (Datetime.mk y m dd hr 0 0)
  else none

/-- Two zero-padded decimal digits (`%02d`). -/
def pad2 (n : Nat) : List Char := [digitChar (n / 10 % 10), digitChar (n % 10)]

/-- Four zero-padded decimal digits (`%04d`; the `datetime` year is at most
9999, so the leading digit is `n / 1000`). -/
def pad4 (n : Nat) : List Char :=
  [digitChar (n / 1000 % 10), digitChar (n / 100 % 10), digitChar (n / 10 % 10),
   digitChar (n % 10)]

/-- A `YYYY` input text. -/
def yearText (y : Nat) : String := String.mk (pad4 y)

/-- A `YYYY-MM` input text. -/
def monthText (y m : Nat) : String := String.mk (pad4 y ++ '-' :: pad2 m)

/-- A `YYYY-MM-DD` input text. -/
def dayText (y m d : Nat) : String := String.mk (pad4 y ++ '-' :: pad2 m ++ '-' :: pad2 d)

/-- A `YYYY-MM-DD HH` input text. -/
def hourText (y m d hr : Nat) : String :=
  String.mk (pad4 y ++ '-' :: pad2 m ++ '-' :: pad2 d ++ ' ' :: pad2 hr)

/-- A `YYYY-MM-DD HH:MM:SS` text; `str(datetime)` (isoformat with a space
separator) produces this shape, with the year padded to four digits. -/
def fullText (y m d hr mi s : Nat) : String :=
  String.mk (pad4 y ++ '-' :: pad2 m ++ '-' :: pad2 d ++ ' ' :: pad2 hr
    ++ ':' :: pad2 mi ++ ':' :: pad2 s)

/-- The canonical text `YYYY-MM-DD HH:00:00` of the specification. -/
def canonicalText (y m d hr : Nat) : String := fullText y m d hr 0 0

/-- `str(datetime)` / `datetime.isoformat(' ')`: the full text form with
every field zero-padded (the year to four digits). -/
def renderFull (dt : Datetime) : String :=
  fullText dt.year dt.month dt.day dt.hour dt.minute dt.second

/-- `strftime('%Y')` on this platform: the year as an unpadded decimal
number (at most four digits, since `datetime` years are 1 to 9999). -/
def yearStrftime (y : Nat) : List Char :=
  if 1000 ≤ y then pad4 y
  else if 100 ≤ y then
    [digitChar (y / 100 % 10), digitChar (y / 10 % 10), digitChar (y % 10)]
  else if 10 ≤ y then [digitChar (y / 10 % 10), digitChar (y % 10)]
  else [digitChar (y % 10)]

/-- `strftime('%Y-%m-%d %H:%M:%S')` as the platform's C `strftime` renders
it: the two-digit fields zero-padded, but `%Y` unpadded, so the result
differs from `str(datetime)` exactly on years below 1000
(`datetime(999, 1, 1).strftime('%Y')` is `'999'`). -/
def strftimeFull (dt : Datetime) : String :=
  String.mk (yearStrftime dt.year ++ '-' :: pad2 dt.month ++ '-' :: pad2 dt.day
    ++ ' ' :: pad2 dt.hour ++ ':' :: pad2 dt.minute ++ ':' :: pad2 dt.second)

/-- `.replace(minute=0, second=0, microsecond=0)`. -/
def Datetime.truncateMinSec (dt : Datetime) : Datetime :=
  { dt with minute := 0, second := 0 }

/-- `datetime.strptime` restricted to the five formats of
`DateHour.patterns`, applied to a text that the corresponding anchored
pattern has already matched (the only way this package calls it).  Separator
characters were checked by the pattern; fields missing from a format default
to month 1, day 1, hour 0, minute 0, second 0 as in `strptime`.  Out-of-range
fields raise `ValueError` (`none`), whether `strptime`'s own field regex or
the `datetime` constructor rejects them. -/
def strptime (ft : FormatType) (cs : List Char) : Option Datetime :=
  match ft, cs with
  | FormatType.year, [y1, y2, y3, y4] =>
    mkDatetime (natOfDigits [y1, y2, y3, y4]) 1 1 0 0 0
  | FormatType.month, [y1, y2, y3, y4, _, m1, m2] =>
    mkDatetime (natOfDigits [y1, y2, y3, y4]) (natOfDigits [m1, m2]) 1 0 0 0
  | FormatType.day, [y1, y2, y3, y4, _, m1, m2, _, d1, d2] =>
    mkDatetime (natOfDigits [y1, y2, y3, y4]) (natOfDigits [m1, m2])
      (natOfDigits [d1, d2]) 0 0 0
  | FormatType.hour, [y1, y2, y3, y4, _, m1, m2, _, d1, d2, _, h1, h2] =>
    mkDatetime (natOfDigits [y1, y2, y3, y4]) (natOfDigits [m1, m2])
      (natOfDigits [d1, d2]) (natOfDigits [h1, h2]) 0 0
  | FormatType.full, [y1, y2, y3, y4, _, m1, m2, _, d1, d2, _, h1, h2, _, n1, n2, _, s1, s2] =>
    mkDatetime (natOfDigits [y1, y2, y3, y4]) (natOfDigits [m1, m2])
      (natOfDigits [d1, d2]) (natOfDigits [h1, h2]) (natOfDigits [n1, n2])
      (natOfDigits [s1, s2])
  | _, _ => none

/-- `DateHour.__new__` on a string input: find the first matching pattern
(else raise), `strptime` with its format (invalid dates raise), zero the
minutes and seconds, and store — crucially — `str` of the *datetime* that
`value` now holds, i.e. the fully expanded `YYYY-MM-DD HH:MM:SS` text.
(A `datetime` argument is first rendered through
`strftime('%Y-%m-%d %H:%M:%S')` and then follows this same string path.) -/
def DateHour.new (value : String) : Option String :=
  match matchedFormat value.data with
  | none => none
  | some ft =>
    match strptime ft value.data with
    | none => none
    | some dt => some (renderFull dt.truncateMinSec)

/-- `DateHour._get_format_type`: the same five anchored patterns in the same
order, returning the format name, raising (`none`) when none matches. -/
def getFormatType (s : String) : Option FormatType := matchedFormat s.data

/-- `DateHour._get_start_datetime`: re-match the stored text, `strptime` it,
then derive the first hour of the period according to
`_get_format_type`. -/
def getStartDatetime (s : String) : Option Datetime :=
  match matchedFormat s.data with
  | none => none
  | some ft =>
    match strptime ft s.data with
    | none => none
    | some dt =>
      match getFormatType s with
      | none => none
      | some FormatType.year => some (Datetime.mk dt.year 1 1 0 0 0)
      | some FormatType.month => some (Datetime.mk dt.year dt.month 1 0 0 0)
      | some FormatType.day => some (Datetime.mk dt.year dt.month dt.day 0 0 0)
      | some FormatType.hour => some (Datetime.mk dt.year dt.month dt.day dt.hour 0 0)
      | some FormatType.full => some (Datetime.mk dt.year dt.month dt.day dt.hour 0 0)

/-- `DateHour._get_stop_datetime`: re-match the stored text, `strptime` it,
then derive the last hour of the period according to `_get_format_type`.
The `month` branch takes the first day of the next month (a `replace`, which
validates through the `datetime` constructor) and subtracts one day with
`timedelta` arithmetic. -/
def getStopDatetime (s : String) : Option Datetime :=
  match matchedFormat s.data with
  | none => none
  | some ft =>
    match strptime ft s.data with
    | none => none
    | some dt =>
      match getFormatType s with
      | none => none
      | some FormatType.year => some (Datetime.mk dt.year 12 31 23 0 0)
      | some FormatType.month =>
        match (if dt.month == 12
               then mkDatetime (dt.year + 1) 1 1 dt.hour dt.minute dt.second
               else mkDatetime dt.year (dt.month + 1) 1 dt.hour dt.minute dt.second) with
        | none => none
        | some nextMonth =>
          match dtFromAbsHours (nextMonth.toAbsHours - 24) with
          | none => none
          | some lastDay => some (Datetime.mk lastDay.year lastDay.month lastDay.day 23 0 0)
      | some FormatType.day => some (Datetime.mk dt.year dt.month dt.day 23 0 0)
      | some FormatType.hour => some (Datetime.mk dt.year dt.month dt.day dt.hour 0 0)
      | some FormatType.full => some (Datetime.mk dt.year dt.month dt.day dt.hour 0 0)

/-- The `DateHour.start` property: `strftime` of `_get_start_datetime`. -/
def DateHour.start (s : String) : Option String := (getStartDatetime s).map strftimeFull

/-- The `DateHour.stop` property: `strftime` of `_get_stop_datetime`. -/
def DateHour.stop (s : String) : Option String := (getStopDatetime s).map strftimeFull

/-- `DateHour.__sub__`: subtract `hours` hours from the period start with
`timedelta` arithmetic and build a fresh `DateHour` from the rendered
result. -/
def DateHour.sub (s : String) (hours : Int) : Option String :=
  match getStartDatetime s with
  | none => none
  | some dt =>
    match dtFromAbsHours (dt.toAbsHours - hours) with
    | none => none
    | some dt2 => DateHour.new (strftimeFull dt2)

/-- `DateHour.__add__`: add `hours` hours to the period start with
`timedelta` arithmetic and build a fresh `DateHour` from the rendered
result. -/
def DateHour.add (s : String) (hours : Int) : Option String :=
  match getStartDatetime s with
  | none => none
  | some dt =>
    match dtFromAbsHours (dt.toAbsHours + hours) with
    | none => none
    | some dt2 => DateHour.new (strftimeFull dt2)

/-- Modelled from the spec: `TimeRange.__len__` calls
`self.start._get_datetime()`, but no method `_get_datetime` is defined on
`DateHour` in `src/date_hour/date_hour.py` (only this caller exists under
`src/`).  Specification §3 says a Period holds an `instant`, the stored
hour-resolution civil datetime, so the missing accessor is modelled as
parsing the stored text back to its `datetime`. -/
def DateHour.getDatetime (s : String) : Option Datetime :=
  match matchedFormat s.data with
  | none => none
  | some ft => strptime ft s.data

/-- A `TimeRange` value: the two stored `DateHour` strings. -/
structure TimeRange where
  start : String
  stop : String
deriving DecidableEq

/-- `TimeRange.__init__` with `stop=None`: coerce `start` through
`DateHour`, then build `stop` by re-parsing `self.start.stop` — the rendered
stop boundary of the start period — as a fresh `DateHour`. -/
def TimeRange.ofStart (start : String) : Option TimeRange :=
  match DateHour.new start with
  | none => none
  | some s =>
    match DateHour.stop s with
    | none => none
    | some sstop =>
      match DateHour.new sstop with
      | none => none
      | some t => some (TimeRange.mk s t)

/-- `TimeRange.__init__` with both arguments: coerce each through
`DateHour` independently. -/
def TimeRange.ofStartStop (start stop : String) : Option TimeRange :=
  match DateHour.new start, DateHour.new stop with
  | some s, some t => some (TimeRange.mk s t)
  | _, _ => none

/-- `TimeRange.__len__`:
`int((stop_dt - start_dt).total_seconds() / 3600) + 1`, where the two
datetimes come from the (spec-modelled) `_get_datetime` accessor; `int()` of
the float quotient truncates toward zero, `Int.tdiv` here (exact at these
magnitudes: stored instants are whole hours, so the quotient is an
integer). -/
def TimeRange.len (r : TimeRange) : Option Int :=
  match DateHour.getDatetime r.start, DateHour.getDatetime r.stop with
  | some a, some b => some (Int.tdiv (b.toAbsSeconds - a.toAbsSeconds) 3600 + 1)
  | _, _ => none

/-! ### Digit and pattern lemmas -/

theorem isDigitChar_digitChar (d : Nat) (hd : d < 10) : isDigitChar (digitChar d) = true := by
  interval_cases d <;> decide

theorem isDigitChar_digitChar_mod (n : Nat) : isDigitChar (digitChar (n % 10)) = true :=
  isDigitChar_digitChar _ (Nat.mod_lt _ (by omega))

theorem digitVal_digitChar (d : Nat) (hd : d < 10) : digitVal (digitChar d) = d := by
  interval_cases d <;> decide

theorem digitVal_digitChar_mod (n : Nat) : digitVal (digitChar (n % 10)) = n % 10 :=
  digitVal_digitChar _ (Nat.mod_lt _ (by omega))

theorem natOfDigits_pad4 (y : Nat) (hy : y ≤ 9999) : natOfDigits (pad4 y) = y := by
  simp only [natOfDigits, pad4, List.foldl_cons, List.foldl_nil, digitVal_digitChar_mod]
  omega

theorem natOfDigits_pad2 (n : Nat) (hn : n ≤ 99) : natOfDigits (pad2 n) = n := by
  simp only [natOfDigits, pad2, List.foldl_cons, List.foldl_nil, digitVal_digitChar_mod]
  omega

theorem daysInMonth_le (y m : Nat) : daysInMonth y m ≤ 31 := by
  unfold daysInMonth
  repeat' split
  all_goals omega

theorem matchedFormat_yearText (y : Nat) :
    matchedFormat (yearText y).data = some FormatType.year := by
  simp [matchedFormat, yearText, pad4, patYear, matchToks, isDigitChar_digitChar_mod]

theorem matchedFormat_monthText (y m : Nat) :
    matchedFormat (monthText y m).data = some FormatType.month := by
  simp [matchedFormat, monthText, pad4, pad2, patYear, patMonth, matchToks,
    isDigitChar_digitChar_mod]

theorem matchedFormat_dayText (y m d : Nat) :
    matchedFormat (dayText y m d).data = some FormatType.day := by
  simp [matchedFormat, dayText, pad4, pad2, patYear, patMonth, patDay, matchToks,
    isDigitChar_digitChar_mod]

theorem matchedFormat_hourText (y m d hr : Nat) :
    matchedFormat (hourText y m d hr).data = some FormatType.hour := by
  simp [matchedFormat, hourText, pad4, pad2, patYear, patMonth, patDay, patHour, matchToks,
    isDigitChar_digitChar_mod]

theorem matchedFormat_fullText (y m d hr mi s : Nat) :
    matchedFormat (fullText y m d hr mi s).data = some FormatType.full := by
  simp [matchedFormat, fullText, pad4, pad2, patYear, patMonth, patDay, patHour, patFull,
    matchToks, isDigitChar_digitChar_mod]

/-! ### `strptime` on rendered shapes -/

theorem strptime_yearText (y : Nat) (hy : y ≤ 9999) :
    strptime FormatType.year (yearText y).data = mkDatetime y 1 1 0 0 0 := by
  show mkDatetime (natOfDigits (pad4 y)) 1 1 0 0 0 = mkDatetime y 1 1 0 0 0
  rw [natOfDigits_pad4 y hy]

theorem strptime_monthText (y m : Nat) (hy : y ≤ 9999) (hm : m ≤ 99) :
    strptime FormatType.month (monthText y m).data = mkDatetime y m 1 0 0 0 := by
  show mkDatetime (natOfDigits (pad4 y)) (natOfDigits (pad2 m)) 1 0 0 0 =
    mkDatetime y m 1 0 0 0
  rw [natOfDigits_pad4 y hy, natOfDigits_pad2 m hm]

theorem strptime_dayText (y m d : Nat) (hy : y ≤ 9999) (hm : m ≤ 99) (hd : d ≤ 99) :
    strptime FormatType.day (dayText y m d).data = mkDatetime y m d 0 0 0 := by
  show mkDatetime (natOfDigits (pad4 y)) (natOfDigits (pad2 m)) (natOfDigits (pad2 d)) 0 0 0 =
    mkDatetime y m d 0 0 0
  rw [natOfDigits_pad4 y hy, natOfDigits_pad2 m hm, natOfDigits_pad2 d hd]

theorem strptime_hourText (y m d hr : Nat) (hy : y ≤ 9999) (hm : m ≤ 99) (hd : d ≤ 99)
    (hh : hr ≤ 99) :
    strptime FormatType.hour (hourText y m d hr).data = mkDatetime y m d hr 0 0 := by
  show mkDatetime (natOfDigits (pad4 y)) (natOfDigits (pad2 m)) (natOfDigits (pad2 d))
    (natOfDigits (pad2 hr)) 0 0 = mkDatetime y m d hr 0 0
  rw [natOfDigits_pad4 y hy, natOfDigits_pad2 m hm, natOfDigits_pad2 d hd,
    natOfDigits_pad2 hr hh]

theorem strptime_fullText (y m d hr mi s : Nat) (hy : y ≤ 9999) (hm : m ≤ 99) (hd : d ≤ 99)
    (hh : hr ≤ 99) (hmi : mi ≤ 99) (hs : s ≤ 99) :
    strptime FormatType.full (fullText y m d hr mi s).data = mkDatetime y m d hr mi s := by
  show mkDatetime (natOfDigits (pad4 y)) (natOfDigits (pad2 m)) (natOfDigits (pad2 d))
    (natOfDigits (pad2 hr)) (natOfDigits (pad2 mi)) (natOfDigits (pad2 s)) =
    mkDatetime y m d hr mi s
  rw [natOfDigits_pad4 y hy, natOfDigits_pad2 m hm, natOfDigits_pad2 d hd,
    natOfDigits_pad2 hr hh, natOfDigits_pad2 mi hmi, natOfDigits_pad2 s hs]

/-! ### Validity lemmas -/

theorem mkDatetime_some {y m d hr mi s : Nat} {dt : Datetime}
    (h : mkDatetime y m d hr mi s = some dt) :
    dt = Datetime.mk y m d hr mi s ∧ dt.Valid := by
  by_cases hv : (Datetime.mk y m d hr mi s).Valid
  · rw [mkDatetime, if_pos hv] at h
    injection h with h2
    subst h2
    exact ⟨rfl, hv⟩
  · rw [mkDatetime, if_neg hv] at h
    exact Option.noConfusion h

theorem mkDatetime_of_valid {y m d hr mi s : Nat}
    (hv : (Datetime.mk y m d hr mi s).Valid) :
    mkDatetime y m d hr mi s = some (Datetime.mk y m d hr mi s) := by
  rw [mkDatetime, if_pos hv]

theorem strptime_valid {ft : FormatType} {cs : List Char} {dt : Datetime}
    (h : strptime ft cs = some dt) : dt.Valid := by
  unfold strptime at h
  split at h
  all_goals first
  | exact (mkDatetime_some h).2
  | exact Option.noConfusion h

/-! ### Claims settled by direct evaluation -/

/-- C1: the claim says `Period("2024").start` renders `"2024-01-01 00:00:00"` (it
does) and `.stop` renders `"2024-12-31 23:00:00"` (it does not).  `__new__`
stores `str(datetime)`, so the constructed value is the full text
`"2024-01-01 00:00:00"`; `_get_format_type` therefore classifies it as `full`
and `.stop` returns the instant itself.  The year branch of
`_get_stop_datetime` would return Dec 31 23:00 — as the demo comments in
`date_hour.py` document — but only when applied to the raw four-digit text
`"2024"`, which no constructed `DateHour` ever holds. -/
theorem claim_C1 :
    DateHour.new ("2024") = some ("2024-01-01 00:00:00") ∧
    DateHour.start ("2024-01-01 00:00:00") = some ("2024-01-01 00:00:00") ∧
    DateHour.stop ("2024-01-01 00:00:00") = some ("2024-01-01 00:00:00") ∧
    getStopDatetime ("2024") = some (Datetime.mk 2024 12 31 23 0 0) := by
  refine ⟨?_, ?_, ?_, ?_⟩ <;> decide

/-- C2: the two Periods built from `"2024"` and `"2024-01-01 00:00:00"` are
indeed textually identical, but — against the claim — they do not differ in
granularity or in `.stop`: both store the same full text, both are classified
`full` by `_get_format_type`, and both `.stop` values are equal (the
granularity of the input shape is destroyed by `__new__`). -/
theorem claim_C2 :
    DateHour.new ("2024") = some ("2024-01-01 00:00:00") ∧
    DateHour.new ("2024-01-01 00:00:00") = some ("2024-01-01 00:00:00") ∧
    getFormatType ("2024-01-01 00:00:00") = some FormatType.full ∧
    DateHour.stop ("2024-01-01 00:00:00") = DateHour.start ("2024-01-01 00:00:00") := by
  refine ⟨?_, ?_, ?_, ?_⟩ <;> decide

/-- C3: a Range built from a single Period does *not* expand to the period's
boundaries.  The stored start text is already the full form, its `.stop`
equals itself, so the auto-derived stop Period equals the start Period and
(with the spec-modelled `_get_datetime`) every such range has length 1:
`Range("2024-01-15 14")` gives 1 as claimed, but `Range("2024-01-15")` gives
1 instead of 24 and `Range("2024")` gives 1 instead of 8784. -/
theorem claim_C3 :
    TimeRange.ofStart ("2024-01-15 14") =
      some (TimeRange.mk ("2024-01-15 14:00:00") ("2024-01-15 14:00:00")) ∧
    TimeRange.len (TimeRange.mk ("2024-01-15 14:00:00") ("2024-01-15 14:00:00")) = some 1 ∧
    TimeRange.ofStart ("2024-01-15") =
      some (TimeRange.mk ("2024-01-15 00:00:00") ("2024-01-15 00:00:00")) ∧
    TimeRange.len (TimeRange.mk ("2024-01-15 00:00:00") ("2024-01-15 00:00:00")) = some 1 ∧
    TimeRange.ofStart ("2024") =
      some (TimeRange.mk ("2024-01-01 00:00:00") ("2024-01-01 00:00:00")) ∧
    TimeRange.len (TimeRange.mk ("2024-01-01 00:00:00") ("2024-01-01 00:00:00")) = some 1 := by
  refine ⟨?_, ?_, ?_, ?_, ?_, ?_⟩ <;> decide

/-- C5: `Period("2024-02").stop` does not return `"2024-02-29 23:00:00"`: the
stored text is the full `"2024-02-01 00:00:00"`, classified `full`, so `.stop`
returns the instant itself; likewise for `"2023-02"`.  The month branch of
`_get_stop_datetime` — first day of the next month minus one calendar day,
with the December→January rollover — is calendar-correct exactly as the claim
describes (Feb 29 in leap 2024, Feb 28 in 2023, Dec 31 after rollover), but it
only fires on a raw `YYYY-MM` text, which no constructed `DateHour` ever
holds. -/
theorem claim_C5 :
    DateHour.new ("2024-02") = some ("2024-02-01 00:00:00") ∧
    DateHour.stop ("2024-02-01 00:00:00") = some ("2024-02-01 00:00:00") ∧
    DateHour.new ("2023-02") = some ("2023-02-01 00:00:00") ∧
    DateHour.stop ("2023-02-01 00:00:00") = some ("2023-02-01 00:00:00") ∧
    getStopDatetime ("2024-02") = some (Datetime.mk 2024 2 29 23 0 0) ∧
    getStopDatetime ("2023-02") = some (Datetime.mk 2023 2 28 23 0 0) ∧
    getStopDatetime ("2024-12") = some (Datetime.mk 2024 12 31 23 0 0) := by
  refine ⟨?_, ?_, ?_, ?_, ?_, ?_, ?_⟩ <;> decide

/-- C6: hour-shift arithmetic crosses period boundaries calendar-correctly:
`Period("2024") - 1` starts at `"2023-12-31 23:00:00"` (the stored text of
`Period("2024")` is `"2024-01-01 00:00:00"`, whose period start is that same
instant, so subtracting one hour lands in the prior year's last hour) and
`Period("2024-12-31 23") + 1` starts at `"2025-01-01 00:00:00"`. -/
theorem claim_C6 :
    DateHour.new ("2024") = some ("2024-01-01 00:00:00") ∧
    DateHour.sub ("2024-01-01 00:00:00") 1 = some ("2023-12-31 23:00:00") ∧
    DateHour.start ("2023-12-31 23:00:00") = some ("2023-12-31 23:00:00") ∧
    DateHour.new ("2024-12-31 23") = some ("2024-12-31 23:00:00") ∧
    DateHour.add ("2024-12-31 23:00:00") 1 = some ("2025-01-01 00:00:00") ∧
    DateHour.start ("2025-01-01 00:00:00") = some ("2025-01-01 00:00:00") := by
  refine ⟨?_, ?_, ?_, ?_, ?_, ?_⟩ <;> decide

/-- C9: parsing the full timestamp `"2024-01-15 14:59:59"` truncates minutes
and seconds to the containing hour: the stored canonical text is
`"2024-01-15 14:00:00"`, and its start and stop boundaries are both that very
hour (the hour/full classifications behave identically, which is the spec's
`Hour` granularity). -/
theorem claim_C9 :
    DateHour.new ("2024-01-15 14:59:59") = some ("2024-01-15 14:00:00") ∧
    DateHour.start ("2024-01-15 14:00:00") = some ("2024-01-15 14:00:00") ∧
    DateHour.stop ("2024-01-15 14:00:00") = some ("2024-01-15 14:00:00") := by
  refine ⟨?_, ?_, ?_⟩ <;> decide

/-! ### Canonical-text round trips -/

theorem strptime_renderFull {dt : Datetime} (hv : dt.Valid) :
    strptime FormatType.full (renderFull dt).data = some dt := by
  have hv2 := hv
  have hd31 := daysInMonth_le dt.year dt.month
  obtain ⟨h1, h2, h3, h4, h5, h6, h7, h8, h9⟩ := hv2
  have e := strptime_fullText dt.year dt.month dt.day dt.hour dt.minute dt.second h2
    (by omega) (by omega) (by omega) (by omega) (by omega)
  calc strptime FormatType.full (renderFull dt).data
      = mkDatetime dt.year dt.month dt.day dt.hour dt.minute dt.second := e
    _ = some dt := mkDatetime_of_valid hv

theorem start_stop_of_canonical (yy mm dd hh : Nat)
    (hv : (Datetime.mk yy mm dd hh 0 0).Valid) :
    getStartDatetime (renderFull (Datetime.mk yy mm dd hh 0 0)) =
      some (Datetime.mk yy mm dd hh 0 0) ∧
    getStopDatetime (renderFull (Datetime.mk yy mm dd hh 0 0)) =
      some (Datetime.mk yy mm dd hh 0 0) ∧
    DateHour.getDatetime (renderFull (Datetime.mk yy mm dd hh 0 0)) =
      some (Datetime.mk yy mm dd hh 0 0) := by
  have hmf : matchedFormat (renderFull (Datetime.mk yy mm dd hh 0 0)).data =
      some FormatType.full := matchedFormat_fullText yy mm dd hh 0 0
  have hsp := strptime_renderFull hv
  refine ⟨?_, ?_, ?_⟩
  · simp only [getStartDatetime, getFormatType, hmf, hsp]
  · simp only [getStopDatetime, getFormatType, hmf, hsp]
  · simp only [DateHour.getDatetime, hmf, hsp]

theorem new_some_canonical {s t : String} (h : DateHour.new s = some t) :
    ∃ yy mm dd hh : Nat, (Datetime.mk yy mm dd hh 0 0).Valid ∧
      t = renderFull (Datetime.mk yy mm dd hh 0 0) := by
  unfold DateHour.new at h
  split at h
  · exact Option.noConfusion h
  · split at h
    · exact Option.noConfusion h
    · rename_i dt hdt
      injection h with h2
      have hv := strptime_valid hdt
      obtain ⟨yy, mm, dd, hh, mi, ss⟩ := dt
      refine ⟨yy, mm, dd, hh, ?_, h2.symm⟩
      obtain ⟨a1, a2, a3, a4, a5, a6, a7, a8, a9⟩ := hv
      exact ⟨a1, a2, a3, a4, a5, a6, a7, Nat.zero_le 59, Nat.zero_le 59⟩

/-- C7: parsing is idempotent on canonical text — for every calendar-valid
`YYYY-MM-DD HH:00:00` text, `DateHour.__new__` accepts it (pattern 5),
truncation of the already-zero minutes and seconds changes nothing, and the
stored `str(datetime)` is the input text itself. -/
theorem claim_C7 (y m d hr : Nat) (h1 : 1 ≤ y) (h2 : y ≤ 9999) (h3 : 1 ≤ m) (h4 : m ≤ 12)
    (h5 : 1 ≤ d) (h6 : d ≤ daysInMonth y m) (h7 : hr ≤ 23) :
    DateHour.new (canonicalText y m d hr) = some (canonicalText y m d hr) := by
  have hv : (Datetime.mk y m d hr 0 0).Valid :=
    ⟨h1, h2, h3, h4, h5, h6, h7, Nat.zero_le 59, Nat.zero_le 59⟩
  have e : canonicalText y m d hr = renderFull (Datetime.mk y m d hr 0 0) := rfl
  rw [e]
  have hmf : matchedFormat (renderFull (Datetime.mk y m d hr 0 0)).data =
      some FormatType.full := matchedFormat_fullText y m d hr 0 0
  have hsp := strptime_renderFull hv
  simp only [DateHour.new, hmf, hsp]
  rfl

/-- Witness for C7 at the canonical text `"2024-01-15 14:00:00"`. -/
theorem claim_C7_witness :
    DateHour.new (canonicalText 2024 1 15 14) = some (canonicalText 2024 1 15 14) :=
  claim_C7 2024 1 15 14 (by decide) (by decide) (by decide) (by decide) (by decide)
    (by decide) (by decide)

/-- C10: every successfully constructed `DateHour`, whatever the shape of its
input text, stores the full `YYYY-MM-DD HH:MM:SS` rendering (isoformat) of a
valid hour-truncated datetime, is therefore classified `full` by
`_get_format_type`, and its `start` and `stop` properties both return the
same value — the `strftime` rendering of that stored hour instant itself.
(For years below 1000 that `strftime` rendering has an unpadded year and so
differs from the stored isoformat text; on four-digit years the two
coincide.) -/
theorem claim_C10 (s t : String) (h : DateHour.new s = some t) :
    getFormatType t = some FormatType.full ∧
    DateHour.start t = DateHour.stop t ∧
    ∃ yy mm dd hh : Nat, (Datetime.mk yy mm dd hh 0 0).Valid ∧
      t = renderFull (Datetime.mk yy mm dd hh 0 0) ∧
      DateHour.start t = some (strftimeFull (Datetime.mk yy mm dd hh 0 0)) := by
  obtain ⟨yy, mm, dd, hh, hv, rfl⟩ := new_some_canonical h
  obtain ⟨hstart, hstop, _⟩ := start_stop_of_canonical yy mm dd hh hv
  refine ⟨matchedFormat_fullText yy mm dd hh 0 0, ?_, yy, mm, dd, hh, hv, rfl, ?_⟩
  · rw [DateHour.start, DateHour.stop, hstart, hstop]
  · rw [DateHour.start, hstart, Option.map_some']

/-- Witness for C10 at the input `"2024"`. -/
theorem claim_C10_witness :
    getFormatType ("2024-01-01 00:00:00") = some FormatType.full ∧
    DateHour.start ("2024-01-01 00:00:00") = DateHour.stop ("2024-01-01 00:00:00") ∧
    ∃ yy mm dd hh : Nat, (Datetime.mk yy mm dd hh 0 0).Valid ∧
      ("2024-01-01 00:00:00" : String) = renderFull (Datetime.mk yy mm dd hh 0 0) ∧
      DateHour.start ("2024-01-01 00:00:00") =
        some (strftimeFull (Datetime.mk yy mm dd hh 0 0)) :=
  claim_C10 ("2024") ("2024-01-01 00:00:00") (by decide)

/-- C4: for ranges built from two explicit texts, `__len__` returns the
whole-hour difference between the stop and start instants plus one (both
stored instants are hour-aligned, so the seconds quotient is exact), and in
particular the 10:00–14:00 range on 2024-01-15 has length 5. -/
theorem claim_C4 :
    (∀ s t r a b, TimeRange.ofStartStop s t = some r →
        DateHour.getDatetime r.start = some a →
        DateHour.getDatetime r.stop = some b →
        a.toAbsHours ≤ b.toAbsHours →
        TimeRange.len r = some (b.toAbsHours - a.toAbsHours + 1)) ∧
    TimeRange.ofStartStop ("2024-01-15 10:00:00") ("2024-01-15 14:00:00") =
      some (TimeRange.mk ("2024-01-15 10:00:00") ("2024-01-15 14:00:00")) ∧
    TimeRange.len (TimeRange.mk ("2024-01-15 10:00:00") ("2024-01-15 14:00:00")) =
      some 5 := by
  refine ⟨?_, by decide, by decide⟩
  intro s t r a b hmk ha hb hle
  rcases hu : DateHour.new s with _ | u <;>
    rcases hv : DateHour.new t with _ | v <;>
    rw [TimeRange.ofStartStop, hu, hv] at hmk
  · exact Option.noConfusion hmk
  · exact Option.noConfusion hmk
  · exact Option.noConfusion hmk
  have hmk2 : some (TimeRange.mk u v) = some r := hmk
  injection hmk2 with hmk3
  subst hmk3
  obtain ⟨ya, ma, da, hha, hva, rfl⟩ := new_some_canonical hu
  obtain ⟨yb, mb, db, hhb, hvb, rfl⟩ := new_some_canonical hv
  have hgA := (start_stop_of_canonical ya ma da hha hva).2.2
  have hgB := (start_stop_of_canonical yb mb db hhb hvb).2.2
  have haA : some a = some (Datetime.mk ya ma da hha 0 0) := by
    have h1 : DateHour.getDatetime (renderFull (Datetime.mk ya ma da hha 0 0)) = some a := ha
    rw [hgA] at h1
    exact h1.symm
  injection haA with haA2
  subst haA2
  have hbB : some b = some (Datetime.mk yb mb db hhb 0 0) := by
    have h1 : DateHour.getDatetime (renderFull (Datetime.mk yb mb db hhb 0 0)) = some b := hb
    rw [hgB] at h1
    exact h1.symm
  injection hbB with hbB2
  subst hbB2
  have hlen : TimeRange.len (TimeRange.mk (renderFull (Datetime.mk ya ma da hha 0 0))
      (renderFull (Datetime.mk yb mb db hhb 0 0))) =
      some (Int.tdiv ((Datetime.mk yb mb db hhb 0 0).toAbsSeconds -
        (Datetime.mk ya ma da hha 0 0).toAbsSeconds) 3600 + 1) := by
    simp only [TimeRange.len, hgA, hgB]
  rw [hlen]
  have es : ∀ yy mm dd hh : Nat, (Datetime.mk yy mm dd hh 0 0).toAbsSeconds =
      3600 * (Datetime.mk yy mm dd hh 0 0).toAbsHours := by
    intro yy mm dd hh
    simp [Datetime.toAbsSeconds]
  rw [es, es]
  rw [show 3600 * (Datetime.mk yb mb db hhb 0 0).toAbsHours -
      3600 * (Datetime.mk ya ma da hha 0 0).toAbsHours =
      3600 * ((Datetime.mk yb mb db hhb 0 0).toAbsHours -
        (Datetime.mk ya ma da hha 0 0).toAbsHours) from by ring]
  rw [Int.mul_tdiv_cancel_left _ (by norm_num)]

/-- Witness for C4 at the explicit range 10:00–14:00 on 2024-01-15. -/
theorem claim_C4_witness :
    TimeRange.len (TimeRange.mk ("2024-01-15 10:00:00") ("2024-01-15 14:00:00")) =
      some ((Datetime.mk 2024 1 15 14 0 0).toAbsHours -
        (Datetime.mk 2024 1 15 10 0 0).toAbsHours + 1) :=
  claim_C4.1 ("2024-01-15 10:00:00") ("2024-01-15 14:00:00")
    (TimeRange.mk ("2024-01-15 10:00:00") ("2024-01-15 14:00:00"))
    (Datetime.mk 2024 1 15 10 0 0) (Datetime.mk 2024 1 15 14 0 0)
    (by decide) (by decide) (by decide) (by decide)

/-! ### Acceptance of each recognized shape -/

theorem daysInMonth_pos (y m : Nat) : 1 ≤ daysInMonth y m := by
  unfold daysInMonth
  repeat' split
  all_goals omega

theorem new_isSome_yearText (y : Nat) (h1 : 1 ≤ y) (h2 : y ≤ 9999) :
    (DateHour.new (yearText y)).isSome = true := by
  have hv : (Datetime.mk y 1 1 0 0 0).Valid :=
    ⟨h1, h2, Nat.le_refl 1, by show (1 : Nat) ≤ 12; decide, Nat.le_refl 1,
      daysInMonth_pos y 1, Nat.zero_le 23, Nat.zero_le 59, Nat.zero_le 59⟩
  simp only [DateHour.new, matchedFormat_yearText, strptime_yearText y h2,
    mkDatetime_of_valid hv, Option.isSome_some]

theorem new_isSome_monthText (y m : Nat) (h1 : 1 ≤ y) (h2 : y ≤ 9999) (h3 : 1 ≤ m)
    (h4 : m ≤ 12) : (DateHour.new (monthText y m)).isSome = true := by
  have hv : (Datetime.mk y m 1 0 0 0).Valid :=
    ⟨h1, h2, h3, h4, Nat.le_refl 1, daysInMonth_pos y m,
      Nat.zero_le 23, Nat.zero_le 59, Nat.zero_le 59⟩
  simp only [DateHour.new, matchedFormat_monthText, strptime_monthText y m h2 (by omega),
    mkDatetime_of_valid hv, Option.isSome_some]

theorem new_isSome_dayText (y m d : Nat) (h1 : 1 ≤ y) (h2 : y ≤ 9999) (h3 : 1 ≤ m)
    (h4 : m ≤ 12) (h5 : 1 ≤ d) (h6 : d ≤ daysInMonth y m) :
    (DateHour.new (dayText y m d)).isSome = true := by
  have hd99 : d ≤ 99 := by
    have := daysInMonth_le y m
    omega
  have hv : (Datetime.mk y m d 0 0 0).Valid :=
    ⟨h1, h2, h3, h4, h5, h6, Nat.zero_le 23, Nat.zero_le 59, Nat.zero_le 59⟩
  simp only [DateHour.new, matchedFormat_dayText, strptime_dayText y m d h2 (by omega) hd99,
    mkDatetime_of_valid hv, Option.isSome_some]

theorem new_isSome_hourText (y m d hr : Nat) (h1 : 1 ≤ y) (h2 : y ≤ 9999) (h3 : 1 ≤ m)
    (h4 : m ≤ 12) (h5 : 1 ≤ d) (h6 : d ≤ daysInMonth y m) (h7 : hr ≤ 23) :
    (DateHour.new (hourText y m d hr)).isSome = true := by
  have hd99 : d ≤ 99 := by
    have := daysInMonth_le y m
    omega
  have hv : (Datetime.mk y m d hr 0 0).Valid :=
    ⟨h1, h2, h3, h4, h5, h6, h7, Nat.zero_le 59, Nat.zero_le 59⟩
  simp only [DateHour.new, matchedFormat_hourText,
    strptime_hourText y m d hr h2 (by omega) hd99 (by omega),
    mkDatetime_of_valid hv, Option.isSome_some]

theorem new_isSome_fullText (y m d hr mi ss : Nat) (h1 : 1 ≤ y) (h2 : y ≤ 9999) (h3 : 1 ≤ m)
    (h4 : m ≤ 12) (h5 : 1 ≤ d) (h6 : d ≤ daysInMonth y m) (h7 : hr ≤ 23) (h8 : mi ≤ 59)
    (h9 : ss ≤ 59) : (DateHour.new (fullText y m d hr mi ss)).isSome = true := by
  have hd99 : d ≤ 99 := by
    have := daysInMonth_le y m
    omega
  have hv : (Datetime.mk y m d hr mi ss).Valid := ⟨h1, h2, h3, h4, h5, h6, h7, h8, h9⟩
  simp only [DateHour.new, matchedFormat_fullText,
    strptime_fullText y m d hr mi ss h2 (by omega) hd99 (by omega) (by omega) (by omega),
    mkDatetime_of_valid hv, Option.isSome_some]

/-- C8: parsing fails exactly when the text matches none of the five anchored
patterns, or matches one but names an impossible calendar date/time: the
three concrete inputs `"2024-13"`, `"not-a-date"` and `"2024-02-30"` are all
rejected with `ValueError` (no value is produced), failure is precisely
pattern mismatch or `strptime` rejection, and conversely every shaped text
with in-range calendar fields is accepted. -/
theorem claim_C8 :
    DateHour.new ("2024-13") = none ∧
    DateHour.new ("not-a-date") = none ∧
    DateHour.new ("2024-02-30") = none ∧
    (∀ s : String, DateHour.new s = none ↔
      matchedFormat s.data = none ∨
      ∃ ft, matchedFormat s.data = some ft ∧ strptime ft s.data = none) ∧
    (∀ y, 1 ≤ y → y ≤ 9999 → (DateHour.new (yearText y)).isSome = true) ∧
    (∀ y m, 1 ≤ y → y ≤ 9999 → 1 ≤ m → m ≤ 12 →
      (DateHour.new (monthText y m)).isSome = true) ∧
    (∀ y m d, 1 ≤ y → y ≤ 9999 → 1 ≤ m → m ≤ 12 → 1 ≤ d → d ≤ daysInMonth y m →
      (DateHour.new (dayText y m d)).isSome = true) ∧
    (∀ y m d hr, 1 ≤ y → y ≤ 9999 → 1 ≤ m → m ≤ 12 → 1 ≤ d → d ≤ daysInMonth y m →
      hr ≤ 23 → (DateHour.new (hourText y m d hr)).isSome = true) ∧
    (∀ y m d hr mi ss, 1 ≤ y → y ≤ 9999 → 1 ≤ m → m ≤ 12 → 1 ≤ d →
      d ≤ daysInMonth y m → hr ≤ 23 → mi ≤ 59 → ss ≤ 59 →
      (DateHour.new (fullText y m d hr mi ss)).isSome = true) := by
  refine ⟨by decide, by decide, by decide, ?_, new_isSome_yearText, new_isSome_monthText,
    new_isSome_dayText, new_isSome_hourText, new_isSome_fullText⟩
  intro s
  rcases hm : matchedFormat s.data with _ | ft
  · simp [DateHour.new, hm]
  · rcases hs : strptime ft s.data with _ | dt
    · simp [DateHour.new, hm, hs]
    · simp [DateHour.new, hm, hs]

/-- Witness for C8: the failure characterization at `"2024-13"` and the
acceptance of one instance of each recognized shape. -/
theorem claim_C8_witness :
    (DateHour.new ("2024-13") = none ↔
      matchedFormat ("2024-13" : String).data = none ∨
      ∃ ft, matchedFormat ("2024-13" : String).data = some ft ∧
        strptime ft ("2024-13" : String).data = none) ∧
    (DateHour.new (yearText 2024)).isSome = true ∧
    (DateHour.new (monthText 2024 12)).isSome = true ∧
    (DateHour.new (dayText 2024 2 29)).isSome = true ∧
    (DateHour.new (hourText 2024 12 31 23)).isSome = true ∧
    (DateHour.new (fullText 2024 1 15 14 59 59)).isSome = true :=
  ⟨claim_C8.2.2.2.1 ("2024-13"),
    claim_C8.2.2.2.2.1 2024 (by decide) (by decide),
    claim_C8.2.2.2.2.2.1 2024 12 (by decide) (by decide) (by decide) (by decide),
    claim_C8.2.2.2.2.2.2.1 2024 2 29 (by decide) (by decide) (by decide) (by decide)
      (by decide) (by decide),
    claim_C8.2.2.2.2.2.2.2.1 2024 12 31 23 (by decide) (by decide) (by decide) (by decide)
      (by decide) (by decide) (by decide),
    claim_C8.2.2.2.2.2.2.2.2 2024 1 15 14 59 59 (by decide) (by decide) (by decide)
      (by decide) (by decide) (by decide) (by decide) (by decide) (by decide)⟩
